import Mathlib

/-!
Verification of the `itf` package (client.go, handler.go): the HomeMatic
XML-RPC call client and the server-side dispatch handlers, over a shallow
embedding of the wire value model.

The wire value model (`model.Value` / `xmlrpc.Value`) and the query facility
(`model.Q` / `xmlrpc.Q`), as well as the domain-record decoders
(`DeviceDescription.ReadFrom`, `ParameterDescription.ReadFrom`), live in
sibling packages of the repository; they are modelled here from the spec
(sections 3 and 4.1-4.2). The handler and client logic is translated
directly from `src/itf/handler.go` and `src/itf/client.go`.
-/

namespace Itf

/-- Modelled from the spec: a wire `Value` is a tagged union with exactly one
populated variant at a time — scalar string / number / bool, ordered list,
or named map (string keys, unique). (`model.Value`, not under src/.) -/
inductive Value where
  | str (s : String)
  | int (n : Int)
  | bool (b : Bool)
  | array (xs : List Value)
  | struct (fields : List (String × Value))

/-- Modelled from the spec: terminal string coercion of a Query
(`AsString` faults with `TypeMismatch` unless scalar-string). -/
def qStr : Value → Except String String
  | .str s => .ok s
  | _ => .error "TypeMismatch: expected string"

/-- Modelled from the spec: terminal bool coercion of a Query
(`AsBool` faults with `TypeMismatch` unless scalar-bool). -/
def qBool : Value → Except String Bool
  | .bool b => .ok b
  | _ => .error "TypeMismatch: expected bool"

/-- Modelled from the spec: `Index(i)` requires an ordered-list Value with
`0 <= i < length`, else it faults. -/
def qIdx (v : Value) (i : Nat) : Except String Value :=
  match v with
  | .array xs =>
    match xs.get? i with
    | some x => .ok x
    | none => .error "IndexOutOfRange"
  | _ => .error "TypeMismatch: expected array"

/-- `Idx(i).Bool()` on a fresh Query: the first fault wins, so an index
fault is reported unchanged and otherwise the element is coerced to bool. -/
def qIdxBool (v : Value) (i : Nat) : Except String Bool :=
  match qIdx v i with
  | .error e => .error e
  | .ok x => qBool x

/-- Modelled from the spec: `AsMap` faults with `TypeMismatch` unless the
Value is a named-map; returns the key/value entries. -/
def qMapE : Value → Except String (List (String × Value))
  | .struct fields => .ok fields
  | _ => .error "TypeMismatch: expected map"

/-- Modelled from the spec: `Slice()` on the argument Value of a dispatch
call returns the list elements, and the empty list on any other shape (the
fault recorded in that case is never consulted before the arity check, which
then sees length 0). -/
def argSlice : Value → List Value
  | .array xs => xs
  | _ => []

/-- Modelled from the spec: string coercion under the Query's shared sticky
error slot — a no-op once a fault is recorded, returning the zero value;
the first fault wins. -/
def qStrAcc : Option Value → Option String → String × Option String
  | _, some e => ("", some e)
  | some (.str s), none => (s, none)
  | some _, none => ("", some "TypeMismatch: expected string")
  | none, none => ("", some "IndexOutOfRange")

/-- Modelled from the spec: integer coercion under the shared sticky error
slot (`AsNumber` faults with `TypeMismatch` unless scalar-number). -/
def qIntAcc : Option Value → Option String → Int × Option String
  | _, some e => (0, some e)
  | some (.int n), none => (n, none)
  | some _, none => (0, some "TypeMismatch: expected int")
  | none, none => (0, some "IndexOutOfRange")

/-- Modelled from the spec: `Slice()` coercion under the shared sticky error
slot; a non-list faults and yields the empty list. -/
def qSliceAcc : Option Value → Option String → List Value × Option String
  | _, some e => ([], some e)
  | some (.array xs), none => (xs, none)
  | some _, none => ([], some "TypeMismatch: expected array")
  | none, none => ([], some "IndexOutOfRange")

/-- Modelled from the spec: `Any()` recursively converts the subtree into a
generic dynamic value and cannot itself fault except by propagating an
already-faulted ancestor; the dynamic value mirrors the wire value's shape,
so it is embedded as the Value itself. -/
def qAnyAcc : Option Value → Option String → Value × Option String
  | _, some e => (.str "", some e)
  | some v, none => (v, none)
  | none, none => (.str "", some "IndexOutOfRange")

/-- The address-extraction loop of `deleteDevices` / `readdedDevice`
(handler.go:120-123, 180-183): each element is coerced to string under the
shared error slot; the loop does not break on a fault (a faulted coercion
yields the zero value) and the slot is checked once after the loop. -/
def readAddresses : List Value → Option String → List String × Option String
  | [], e => ([], e)
  | v :: vs, e =>
    let p := qStrAcc (some v) e
    let rest := readAddresses vs p.2
    (p.1 :: rest.1, rest.2)

/-- Modelled from the spec: map-key lookup (`Field(key)` requires the key
present, else faults with `KeyNotFound`). -/
def lookupField : List (String × Value) → String → Except String Value
  | [], k => .error s!"KeyNotFound: {k}"
  | (n, v) :: rest, k => if n = k then .ok v else lookupField rest k

/-- Field lookup followed by string coercion. -/
def getStrField (fields : List (String × Value)) (key : String) : Except String String :=
  match lookupField fields key with
  | .error e => .error e
  | .ok v => qStr v

/-- Field lookup followed by integer coercion. -/
def getIntField (fields : List (String × Value)) (key : String) : Except String Int :=
  match lookupField fields key with
  | .error e => .error e
  | .ok (.int n) => .ok n
  | .ok _ => .error "TypeMismatch: expected int"

/-- Field lookup followed by list coercion. -/
def getListField (fields : List (String × Value)) (key : String) : Except String (List Value) :=
  match lookupField fields key with
  | .error e => .error e
  | .ok (.array xs) => .ok xs
  | .ok _ => .error "TypeMismatch: expected array"

/-- Coerce every element of a list to a string, faulting on the first
element of any other shape. -/
def qStrList : List Value → Except String (List String)
  | [] => .ok []
  | .str s :: rest => (qStrList rest).map (fun xs => s :: xs)
  | _ :: _ => .error "TypeMismatch: expected string"

/-- Modelled from the spec: a device description — address, type name,
parent address, ordered child addresses, supported paramset names, and
protocol flags. (`DeviceDescription` record, not under src/.) -/
structure DeviceDescription where
  address : String
  devType : String
  parent : String
  children : List String
  paramsets : List String
  flags : Int
deriving DecidableEq, Repr

/-- Modelled from the spec: `DeviceDescription.ReadFrom` populates the
record from a named-map Value; a missing required field or a type mismatch
faults, left-to-right, first fault wins. (Not under src/.) -/
def DeviceDescription.readFrom (v : Value) : Except String DeviceDescription :=
  match v with
  | .struct fields => do
    let address ← getStrField fields "ADDRESS"
    let devType ← getStrField fields "TYPE"
    let parent ← getStrField fields "PARENT"
    let childrenV ← getListField fields "CHILDREN"
    let children ← qStrList childrenV
    let paramsetsV ← getListField fields "PARAMSETS"
    let paramsets ← qStrList paramsetsV
    let flags ← getIntField fields "FLAGS"
    Except.ok ⟨address, devType, parent, children, paramsets, flags⟩
  | _ => .error "TypeMismatch: expected struct"

/-- Modelled from the spec: a parameter description — value type tag,
operation flags, minimum / maximum / default, unit string.
(`ParameterDescription` record, not under src/.) -/
structure ParameterDescription where
  paramType : String
  operations : Int
  minV : Value
  maxV : Value
  defaultV : Value
  unitName : String

/-- Modelled from the spec: `ParameterDescription.ReadFrom` populates the
record from a named-map Value; a missing required field or a type mismatch
faults. (Not under src/.) -/
def ParameterDescription.readFrom (v : Value) : Except String ParameterDescription :=
  match v with
  | .struct fields => do
    let paramType ← getStrField fields "TYPE"
    let operations ← getIntField fields "OPERATIONS"
    let mn ← lookupField fields "MIN"
    let mx ← lookupField fields "MAX"
    let df ← lookupField fields "DEFAULT"
    let unitName ← getStrField fields "UNIT"
    Except.ok ⟨paramType, operations, mn, mx, df, unitName⟩
  | _ => .error "TypeMismatch: expected struct"

/-- The Receiver capability (handler.go:13-33): the six callbacks invoked by
the dispatch handlers, each returning success or a domain error. -/
structure Receiver where
  event : String → String → String → Value → Except String Unit
  newDevices : String → List DeviceDescription → Except String Unit
  deleteDevices : String → List String → Except String Unit
  updateDevice : String → String → Int → Except String Unit
  replaceDevice : String → String → String → Except String Unit
  readdedDevice : String → List String → Except String Unit

/-- One recorded Receiver invocation; dispatch handlers return the list of
invocations they performed, so that "the Receiver is never invoked" is the
statement that this trace is empty. -/
inductive RCall where
  | event (interfaceID address valueKey : String) (value : Value)
  | newDevices (interfaceID : String) (descr : List DeviceDescription)
  | deleteDevices (interfaceID : String) (addresses : List String)
  | updateDevice (interfaceID address : String) (hint : Int)
  | replaceDevice (interfaceID oldDeviceAddress newDeviceAddress : String)
  | readdedDevice (interfaceID : String) (addresses : List String)

/-- The `event` dispatch handler (handler.go:52-70). -/
def eventHandler (recv : Receiver) (args : Value) : Except String Value × List RCall :=
  let xs := argSlice args
  if xs.length ≠ 4 then
    let n := xs.length
    (.error s!"Expected 4 arguments for event method: {n}", [])
  else
    let p1 := qStrAcc (xs.get? 0) none
    let p2 := qStrAcc (xs.get? 1) p1.2
    let p3 := qStrAcc (xs.get? 2) p2.2
    let p4 := qAnyAcc (xs.get? 3) p3.2
    match p4.2 with
    | some e => (.error s!"Invalid argument for event method: {e}", [])
    | none =>
      match recv.event p1.1 p2.1 p3.1 p4.1 with
      | .error e => (.error e, [RCall.event p1.1 p2.1 p3.1 p4.1])
      | .ok _ => (.ok (Value.str ""), [RCall.event p1.1 p2.1 p3.1 p4.1])

/-- The `listDevices` dispatch handler (handler.go:73-84): always answers an
empty device list and never touches the Receiver. -/
def listDevicesHandler (_recv : Receiver) (args : Value) : Except String Value × List RCall :=
  let xs := argSlice args
  if xs.length ≠ 1 then
    let n := xs.length
    (.error s!"Expected one argument for listDevices method: {n}", [])
  else
    let p1 := qStrAcc (xs.get? 0) none
    match p1.2 with
    | some e => (.error s!"Invalid argument for listDevices method: {e}", [])
    | none => (.ok (Value.array []), [])

/-- The device-decoding loop of `newDevices` (handler.go:97-105): each list
element is read as a DeviceDescription, aborting on the first fault with a
message naming the method. -/
def decodeDevices : List Value → Except String (List DeviceDescription)
  | [] => .ok []
  | v :: vs =>
    match DeviceDescription.readFrom v with
    | .error e => .error s!"Invalid device description for newDevices method: {e}"
    | .ok d => (decodeDevices vs).map (fun ds => d :: ds)

/-- The `newDevices` dispatch handler (handler.go:86-111). -/
def newDevicesHandler (recv : Receiver) (args : Value) : Except String Value × List RCall :=
  let xs := argSlice args
  if xs.length ≠ 2 then
    let n := xs.length
    (.error s!"Expected 2 arguments for newDevices method: {n}", [])
  else
    let p1 := qStrAcc (xs.get? 0) none
    let p2 := qSliceAcc (xs.get? 1) p1.2
    match p2.2 with
    | some e => (.error s!"Invalid argument for newDevices method: {e}", [])
    | none =>
      match decodeDevices p2.1 with
      | .error e => (.error e, [])
      | .ok descr =>
        match recv.newDevices p1.1 descr with
        | .error e => (.error e, [RCall.newDevices p1.1 descr])
        | .ok _ => (.ok (Value.str ""), [RCall.newDevices p1.1 descr])

/-- The `deleteDevices` dispatch handler (handler.go:113-133). -/
def deleteDevicesHandler (recv : Receiver) (args : Value) : Except String Value × List RCall :=
  let xs := argSlice args
  if xs.length ≠ 2 then
    let n := xs.length
    (.error s!"Expected 2 arguments for deleteDevices method: {n}", [])
  else
    let p1 := qStrAcc (xs.get? 0) none
    let p2 := qSliceAcc (xs.get? 1) p1.2
    let p3 := readAddresses p2.1 p2.2
    match p3.2 with
    | some e => (.error s!"Invalid argument(s) for deleteDevices method: {e}", [])
    | none =>
      match recv.deleteDevices p1.1 p3.1 with
      | .error e => (.error e, [RCall.deleteDevices p1.1 p3.1])
      | .ok _ => (.ok (Value.str ""), [RCall.deleteDevices p1.1 p3.1])

/-- The `updateDevice` dispatch handler (handler.go:135-152). -/
def updateDeviceHandler (recv : Receiver) (args : Value) : Except String Value × List RCall :=
  let xs := argSlice args
  if xs.length ≠ 3 then
    let n := xs.length
    (.error s!"Expected 3 arguments for updateDevice method: {n}", [])
  else
    let p1 := qStrAcc (xs.get? 0) none
    let p2 := qStrAcc (xs.get? 1) p1.2
    let p3 := qIntAcc (xs.get? 2) p2.2
    match p3.2 with
    | some e => (.error s!"Invalid argument(s) for updateDevice method: {e}", [])
    | none =>
      match recv.updateDevice p1.1 p2.1 p3.1 with
      | .error e => (.error e, [RCall.updateDevice p1.1 p2.1 p3.1])
      | .ok _ => (.ok (Value.str ""), [RCall.updateDevice p1.1 p2.1 p3.1])

/-- The `replaceDevice` dispatch handler (handler.go:154-171). -/
def replaceDeviceHandler (recv : Receiver) (args : Value) : Except String Value × List RCall :=
  let xs := argSlice args
  if xs.length ≠ 3 then
    let n := xs.length
    (.error s!"Expected 3 arguments for replaceDevice method: {n}", [])
  else
    let p1 := qStrAcc (xs.get? 0) none
    let p2 := qStrAcc (xs.get? 1) p1.2
    let p3 := qStrAcc (xs.get? 2) p2.2
    match p3.2 with
    | some e => (.error s!"Invalid argument(s) for replaceDevice method: {e}", [])
    | none =>
      match recv.replaceDevice p1.1 p2.1 p3.1 with
      | .error e => (.error e, [RCall.replaceDevice p1.1 p2.1 p3.1])
      | .ok _ => (.ok (Value.str ""), [RCall.replaceDevice p1.1 p2.1 p3.1])

/-- The `readdedDevice` dispatch handler (handler.go:173-193). -/
def readdedDeviceHandler (recv : Receiver) (args : Value) : Except String Value × List RCall :=
  let xs := argSlice args
  if xs.length ≠ 2 then
    let n := xs.length
    (.error s!"Expected 2 arguments for readdedDevice method: {n}", [])
  else
    let p1 := qStrAcc (xs.get? 0) none
    let p2 := qSliceAcc (xs.get? 1) p1.2
    let p3 := readAddresses p2.1 p2.2
    match p3.2 with
    | some e => (.error s!"Invalid argument(s) for readdedDevice method: {e}", [])
    | none =>
      match recv.readdedDevice p1.1 p3.1 with
      | .error e => (.error e, [RCall.readdedDevice p1.1 p3.1])
      | .ok _ => (.ok (Value.str ""), [RCall.readdedDevice p1.1 p3.1])

/-- The Transport capability consumed by the client:
`Call(method, params) -> (Value, error)`. -/
def HmCall : Type := String → List Value → Except String Value

/-- The two concrete transports a client can be constructed over. -/
inductive TransportKind where
  | xmlrpc
  | binrpc
deriving DecidableEq, Repr

/-- The client record (client.go:22-25): target address plus the transport
chosen at construction, immutable thereafter. -/
structure Client where
  addr : String
  transport : TransportKind
deriving DecidableEq, Repr

/-- `NewClient` (client.go:28-33): the text-based XML-RPC transport exactly
for addresses starting with the literal scheme, the binary transport for
every other address. -/
def NewClient (address : String) : Client :=
  if "http://".isPrefixOf address then ⟨address, TransportKind.xmlrpc⟩
  else ⟨address, TransportKind.binrpc⟩

/-- `Client.assertEmptyResponse` (client.go:163-170): the response must
coerce to a string and that string must be empty. -/
def assertEmptyResponse (v : Value) : Except String Unit :=
  let p := qStrAcc (some v) none
  if p.2.isSome ∨ p.1 ≠ "" then .error "Expected emtpy string as response"
  else .ok ()

/-- `Client.PutParamset` (client.go:139-161); the paramset argument is taken
already converted to a wire Value. -/
def PutParamset (call : HmCall) (deviceAddress paramsetType : String) (ps : Value) :
    Except String Unit :=
  match call "putParamset" [Value.str deviceAddress, Value.str paramsetType, ps] with
  | .error e => .error e
  | .ok resp =>
    match assertEmptyResponse resp with
    | .error e => .error s!"Invalid response for method putParamset: {e}"
    | .ok _ => .ok ()

/-- `Client.SetValue` (client.go:173-195); the value argument is taken
already converted to a wire Value. -/
def SetValue (call : HmCall) (deviceAddress valueName : String) (v : Value) :
    Except String Unit :=
  match call "setValue" [Value.str deviceAddress, Value.str valueName, v] with
  | .error e => .error e
  | .ok resp =>
    match assertEmptyResponse resp with
    | .error e => .error s!"Invalid response for method setValue: {e}"
    | .ok _ => .ok ()

/-- `Client.Init` (client.go:220-236); also returns the list of transport
requests (wire method name and argument list) it issued. -/
def Init (call : HmCall) (receiverAddress id : String) :
    Except String Unit × List (String × List Value) :=
  let req : String × List Value := ("init", [Value.str receiverAddress, Value.str id])
  match call "init" [Value.str receiverAddress, Value.str id] with
  | .error e => (.error e, [req])
  | .ok resp =>
    match assertEmptyResponse resp with
    | .error e => (.error s!"Invalid response for method init: {e}", [req])
    | .ok _ => (.ok (), [req])

/-- `Client.Deinit` (client.go:239-255): calls the wire method `init` with
only the receiver address, omitting the second parameter; also returns the
list of transport requests it issued. -/
def Deinit (call : HmCall) (receiverAddress : String) :
    Except String Unit × List (String × List Value) :=
  let req : String × List Value := ("init", [Value.str receiverAddress])
  match call "init" [Value.str receiverAddress] with
  | .error e => (.error e, [req])
  | .ok resp =>
    match assertEmptyResponse resp with
    | .error e => (.error s!"Invalid response for method init: {e}", [req])
    | .ok _ => (.ok (), [req])

/-- `Client.Ping` (client.go:258-279): first a boolean decode of the
response; on failure a retry as one-element list of boolean; if both fail,
an error reporting both faults. -/
def Ping (call : HmCall) (callerID : String) : Except String Bool :=
  match call "ping" [Value.str callerID] with
  | .error e => .error e
  | .ok resp =>
    match qBool resp with
    | .ok res => .ok res
    | .error e1 =>
      match qIdxBool resp 0 with
      | .ok res => .ok res
      | .error e2 => .error s!"Invalid response from method ping: {e1}, {e2}"

/-- `Client.Event` (client.go:282-304); the value argument is taken already
converted to a wire Value. -/
def Event (call : HmCall) (interfaceID address valueKey : String) (v : Value) :
    Except String Unit :=
  match call "event" [Value.str interfaceID, Value.str address, Value.str valueKey, v] with
  | .error e => .error e
  | .ok resp =>
    match assertEmptyResponse resp with
    | .error e => .error s!"Invalid response for method event: {e}"
    | .ok _ => .ok ()

/-- The entry-decoding loop of `GetParamsetDescription` (client.go:96-103):
each map entry is read as a ParameterDescription, breaking on the first
fault (the shared error slot is checked after every element). -/
def decodeParams : List (String × Value) → Except String (List (String × ParameterDescription))
  | [] => .ok []
  | (n, v) :: rest =>
    match ParameterDescription.readFrom v with
    | .error e => .error e
    | .ok p => (decodeParams rest).map (fun r => (n, p) :: r)

/-- `Client.GetParamsetDescription` (client.go:82-108): on any decode fault
the Go code returns `nil, err` — embedded as the `Except.error` case, which
carries no paramset description. -/
def GetParamsetDescription (call : HmCall) (deviceAddress paramsetType : String) :
    Except String (List (String × ParameterDescription)) :=
  match call "getParamsetDescription" [Value.str deviceAddress, Value.str paramsetType] with
  | .error e => .error e
  | .ok v =>
    match qMapE v with
    | .error e => .error s!"Invalid XML response for getParamsetDescription: {e}"
    | .ok entries =>
      match decodeParams entries with
      | .error e => .error s!"Invalid XML response for getParamsetDescription: {e}"
      | .ok r => .ok r

/-- A Receiver whose six callbacks all return the same fixed result; used to
instantiate universally quantified statements at a concrete Receiver. -/
def constReceiver (r : Except String Unit) : Receiver :=
  ⟨fun _ _ _ _ => r, fun _ _ => r, fun _ _ => r, fun _ _ _ => r, fun _ _ _ => r, fun _ _ => r⟩

/-- A transport that answers every request with the same fixed response. -/
def constCall (v : Value) : HmCall := fun _ _ => .ok v

/-- `assertEmptyResponse` succeeds exactly on the empty-string Value. -/
theorem assertEmptyResponse_ok_iff (v : Value) :
    assertEmptyResponse v = Except.ok () ↔ v = Value.str "" := by
  rcases v with s | n | b | xs | fs <;> simp [assertEmptyResponse, qStrAcc]

/-- On any Value other than the empty string, `assertEmptyResponse` returns
its fixed error. -/
theorem assertEmptyResponse_error (v : Value) (h : v ≠ Value.str "") :
    assertEmptyResponse v = Except.error "Expected emtpy string as response" := by
  rcases v with s | n | b | xs | fs <;> simp [assertEmptyResponse, qStrAcc]
  have hs : s ≠ "" := by intro hc; exact h (by rw [hc])
  simp [hs]

/-- The address-extraction loop succeeds on a list of string Values,
returning exactly the underlying strings. -/
theorem readAddresses_map_str (as : List String) :
    readAddresses (as.map Value.str) none = (as, none) := by
  induction as with
  | nil => rfl
  | cons a rest ih => simp [readAddresses, qStrAcc, ih]

/-- C1: for every transport response to `ping`, a boolean response `b`
yields `(b, nil)`; failing that, a list whose element 0 is a boolean `b`
also yields `(b, nil)`; and when both decodes fail, `Ping` returns an error
whose message references both underlying decode errors. -/
theorem ping_dual_decode (call : HmCall) (callerID : String) (resp : Value)
    (h : call "ping" [Value.str callerID] = Except.ok resp) :
    (∀ b, qBool resp = Except.ok b → Ping call callerID = Except.ok b) ∧
    (∀ e1 b, qBool resp = Except.error e1 → qIdxBool resp 0 = Except.ok b →
      Ping call callerID = Except.ok b) ∧
    (∀ e1 e2, qBool resp = Except.error e1 → qIdxBool resp 0 = Except.error e2 →
      Ping call callerID =
        Except.error s!"Invalid response from method ping: {e1}, {e2}") := by
  refine ⟨?_, ?_, ?_⟩
  · intro b hb
    simp [Ping, h, hb]
  · intro e1 b h1 h2
    simp [Ping, h, h1, h2]
  · intro e1 e2 h1 h2
    simp [Ping, h, h1, h2]

/-- Witness for C1 at the concrete response `"foo"`: both decode attempts
fail and the error message carries both faults. -/
theorem ping_dual_decode_witness :
    Ping (constCall (Value.str "foo")) "x" =
      Except.error
        "Invalid response from method ping: TypeMismatch: expected bool, TypeMismatch: expected array" :=
  (ping_dual_decode (constCall (Value.str "foo")) "x" (Value.str "foo") rfl).2.2
    "TypeMismatch: expected bool" "TypeMismatch: expected array" rfl rfl

/-- C2: dispatching `listDevices` on a single string argument returns the
empty ordered-list with no error, and the Receiver-invocation trace is
empty for every Receiver. -/
theorem listDevices_always_empty (recv : Receiver) (interfaceID : String) :
    listDevicesHandler recv (Value.array [Value.str interfaceID]) =
      (Except.ok (Value.array []), []) := rfl

/-- C3: `Deinit` issues exactly one transport request, whose wire method is
`init` and whose argument list holds only the receiver address; `Init` on
the same address supplies the interface id as a second element. -/
theorem deinit_single_init_call (call : HmCall) (receiverAddress id : String) :
    (Deinit call receiverAddress).2 = [("init", [Value.str receiverAddress])] ∧
    (Init call receiverAddress id).2 =
      [("init", [Value.str receiverAddress, Value.str id])] := by
  constructor
  · unfold Deinit
    split
    · rfl
    · split <;> rfl
  · unfold Init
    split
    · rfl
    · split <;> rfl

/-- C4: for each of the seven dispatch methods, an argument list whose
length differs from the required count yields an error naming the method
and the received count, with an empty Receiver-invocation trace. -/
theorem arity_mismatch_no_receiver (recv : Receiver) (xs : List Value) (n : Nat)
    (hn : xs.length = n) :
    (n ≠ 4 → eventHandler recv (Value.array xs) =
      (Except.error s!"Expected 4 arguments for event method: {n}", [])) ∧
    (n ≠ 1 → listDevicesHandler recv (Value.array xs) =
      (Except.error s!"Expected one argument for listDevices method: {n}", [])) ∧
    (n ≠ 2 → newDevicesHandler recv (Value.array xs) =
      (Except.error s!"Expected 2 arguments for newDevices method: {n}", [])) ∧
    (n ≠ 2 → deleteDevicesHandler recv (Value.array xs) =
      (Except.error s!"Expected 2 arguments for deleteDevices method: {n}", [])) ∧
    (n ≠ 3 → updateDeviceHandler recv (Value.array xs) =
      (Except.error s!"Expected 3 arguments for updateDevice method: {n}", [])) ∧
    (n ≠ 3 → replaceDeviceHandler recv (Value.array xs) =
      (Except.error s!"Expected 3 arguments for replaceDevice method: {n}", [])) ∧
    (n ≠ 2 → readdedDeviceHandler recv (Value.array xs) =
      (Except.error s!"Expected 2 arguments for readdedDevice method: {n}", [])) := by
  subst hn
  refine ⟨?_, ?_, ?_, ?_, ?_, ?_, ?_⟩ <;> intro h <;>
    simp [eventHandler, listDevicesHandler, newDevicesHandler, deleteDevicesHandler,
      updateDeviceHandler, replaceDeviceHandler, readdedDeviceHandler, argSlice, h]

/-- Witness for C4: `event` dispatched with 3 individually well-typed
arguments faults on arity, and the trace is empty. -/
theorem arity_mismatch_no_receiver_witness :
    eventHandler (constReceiver (Except.ok ()))
        (Value.array [Value.str "a", Value.str "b", Value.str "c"]) =
      (Except.error "Expected 4 arguments for event method: 3", []) :=
  (arity_mismatch_no_receiver (constReceiver (Except.ok ()))
      [Value.str "a", Value.str "b", Value.str "c"] 3 rfl).1 (by decide)

/-- C5: `assertEmptyResponse` succeeds exactly on the empty-string Value,
and whenever the transport delivers a response it rejects, each
void-response client operation fails with an error naming the wire method
it called (for `Deinit` this wire method is `init`). -/
theorem void_response_assert (v : Value) (call : HmCall)
    (deviceAddress paramsetType valueName receiverAddress id : String)
    (interfaceID address valueKey : String) (ps w : Value) :
    (assertEmptyResponse v = Except.ok () ↔ v = Value.str "") ∧
    (∀ resp e,
      call "putParamset" [Value.str deviceAddress, Value.str paramsetType, ps] =
        Except.ok resp →
      assertEmptyResponse resp = Except.error e →
      PutParamset call deviceAddress paramsetType ps =
        Except.error s!"Invalid response for method putParamset: {e}") ∧
    (∀ resp e,
      call "setValue" [Value.str deviceAddress, Value.str valueName, w] =
        Except.ok resp →
      assertEmptyResponse resp = Except.error e →
      SetValue call deviceAddress valueName w =
        Except.error s!"Invalid response for method setValue: {e}") ∧
    (∀ resp e,
      call "init" [Value.str receiverAddress, Value.str id] = Except.ok resp →
      assertEmptyResponse resp = Except.error e →
      (Init call receiverAddress id).1 =
        Except.error s!"Invalid response for method init: {e}") ∧
    (∀ resp e,
      call "init" [Value.str receiverAddress] = Except.ok resp →
      assertEmptyResponse resp = Except.error e →
      (Deinit call receiverAddress).1 =
        Except.error s!"Invalid response for method init: {e}") ∧
    (∀ resp e,
      call "event" [Value.str interfaceID, Value.str address, Value.str valueKey, w] =
        Except.ok resp →
      assertEmptyResponse resp = Except.error e →
      Event call interfaceID address valueKey w =
        Except.error s!"Invalid response for method event: {e}") := by
  refine ⟨assertEmptyResponse_ok_iff v, ?_, ?_, ?_, ?_, ?_⟩ <;>
    · intro resp e hc ha
      simp [PutParamset, SetValue, Init, Deinit, Event, hc, ha]

/-- Witness for C5 at the concrete non-empty response `"x"`. -/
theorem void_response_assert_witness :
    PutParamset (constCall (Value.str "x")) "DEV" "MASTER" (Value.struct []) =
      Except.error
        "Invalid response for method putParamset: Expected emtpy string as response" :=
  ((void_response_assert (Value.str "") (constCall (Value.str "x")) "DEV" "MASTER"
      "V" "R" "ID" "I" "A" "K" (Value.struct []) (Value.bool true)).2.1
    (Value.str "x") "Expected emtpy string as response" rfl rfl)

/-- C6: `NewClient` selects the text-based XML-RPC transport exactly when
the address starts with the recognized scheme, and the binary transport for
every other address; the chosen transport and address are stored in the
constructed client. -/
theorem newClient_transport_selection (address : String) :
    ((NewClient address).transport = TransportKind.xmlrpc ↔
      "http://".isPrefixOf address = true) ∧
    ((NewClient address).transport = TransportKind.binrpc ↔
      "http://".isPrefixOf address = false) ∧
    (NewClient address).addr = address := by
  unfold NewClient
  by_cases h : "http://".isPrefixOf address = true <;> simp [h]

/-- C7: every forwarding dispatch method with well-formed arguments passes
a Receiver error through unchanged as the call's failure and returns the
empty-string Value on Receiver success, having invoked exactly that
Receiver callback. -/
theorem forwarding_receiver_passthrough (recv : Receiver)
    (interfaceID address valueKey oldA newA : String) (v : Value) (hint : Int)
    (as bs : List String) (ds : List Value) (descr : List DeviceDescription)
    (hds : decodeDevices ds = Except.ok descr) :
    eventHandler recv
        (Value.array [Value.str interfaceID, Value.str address, Value.str valueKey, v]) =
      (Except.map (fun _ => Value.str "") (recv.event interfaceID address valueKey v),
        [RCall.event interfaceID address valueKey v]) ∧
    newDevicesHandler recv (Value.array [Value.str interfaceID, Value.array ds]) =
      (Except.map (fun _ => Value.str "") (recv.newDevices interfaceID descr),
        [RCall.newDevices interfaceID descr]) ∧
    deleteDevicesHandler recv
        (Value.array [Value.str interfaceID, Value.array (as.map Value.str)]) =
      (Except.map (fun _ => Value.str "") (recv.deleteDevices interfaceID as),
        [RCall.deleteDevices interfaceID as]) ∧
    updateDeviceHandler recv
        (Value.array [Value.str interfaceID, Value.str address, Value.int hint]) =
      (Except.map (fun _ => Value.str "") (recv.updateDevice interfaceID address hint),
        [RCall.updateDevice interfaceID address hint]) ∧
    replaceDeviceHandler recv
        (Value.array [Value.str interfaceID, Value.str oldA, Value.str newA]) =
      (Except.map (fun _ => Value.str "") (recv.replaceDevice interfaceID oldA newA),
        [RCall.replaceDevice interfaceID oldA newA]) ∧
    readdedDeviceHandler recv
        (Value.array [Value.str interfaceID, Value.array (bs.map Value.str)]) =
      (Except.map (fun _ => Value.str "") (recv.readdedDevice interfaceID bs),
        [RCall.readdedDevice interfaceID bs]) := by
  refine ⟨?_, ?_, ?_, ?_, ?_, ?_⟩
  · cases hr : recv.event interfaceID address valueKey v <;>
      simp [eventHandler, argSlice, qStrAcc, qAnyAcc, hr, Except.map]
  · cases hr : recv.newDevices interfaceID descr <;>
      simp [newDevicesHandler, argSlice, qStrAcc, qSliceAcc, hds, hr, Except.map]
  · cases hr : recv.deleteDevices interfaceID as <;>
      simp [deleteDevicesHandler, argSlice, qStrAcc, qSliceAcc,
        readAddresses_map_str, hr, Except.map]
  · cases hr : recv.updateDevice interfaceID address hint <;>
      simp [updateDeviceHandler, argSlice, qStrAcc, qIntAcc, hr, Except.map]
  · cases hr : recv.replaceDevice interfaceID oldA newA <;>
      simp [replaceDeviceHandler, argSlice, qStrAcc, hr, Except.map]
  · cases hr : recv.readdedDevice interfaceID bs <;>
      simp [readdedDeviceHandler, argSlice, qStrAcc, qSliceAcc,
        readAddresses_map_str, hr, Except.map]

/-- Witness for C7: with a Receiver whose callbacks fail with a fixed
domain error, `updateDevice` dispatch returns exactly that error, having
invoked the callback. -/
theorem forwarding_receiver_passthrough_witness :
    updateDeviceHandler (constReceiver (Except.error "domain failure"))
        (Value.array [Value.str "I", Value.str "ADDR", Value.int 1]) =
      (Except.error "domain failure", [RCall.updateDevice "I" "ADDR" 1]) :=
  (forwarding_receiver_passthrough (constReceiver (Except.error "domain failure"))
      "I" "ADDR" "K" "O" "N" (Value.bool true) 1 [] [] [] [] rfl).2.2.2.1

/-- C8: dispatching `newDevices` with an interface id and a list aborts
with the first element's decode error without invoking the Receiver, and
when every element decodes (the empty list included) it invokes the
devices-added callback with the decoded list and returns the empty-string
Value on success. -/
theorem newDevices_decode_abort_or_forward (recv : Receiver) (interfaceID : String)
    (ds : List Value) :
    (∀ e, decodeDevices ds = Except.error e →
      newDevicesHandler recv (Value.array [Value.str interfaceID, Value.array ds]) =
        (Except.error e, [])) ∧
    (∀ descr, decodeDevices ds = Except.ok descr →
      newDevicesHandler recv (Value.array [Value.str interfaceID, Value.array ds]) =
        (Except.map (fun _ => Value.str "") (recv.newDevices interfaceID descr),
          [RCall.newDevices interfaceID descr])) := by
  constructor
  · intro e he
    simp [newDevicesHandler, argSlice, qStrAcc, qSliceAcc, he]
  · intro descr hd
    cases hr : recv.newDevices interfaceID descr <;>
      simp [newDevicesHandler, argSlice, qStrAcc, qSliceAcc, hd, hr, Except.map]

/-- Witness for C8: the zero-device dispatch succeeds through the callback
with the empty list, and a malformed first element aborts with its decode
error and an empty trace. -/
theorem newDevices_decode_abort_or_forward_witness :
    newDevicesHandler (constReceiver (Except.ok ()))
        (Value.array [Value.str "X", Value.array []]) =
      (Except.ok (Value.str ""), [RCall.newDevices "X" []]) ∧
    newDevicesHandler (constReceiver (Except.ok ()))
        (Value.array [Value.str "X", Value.array [Value.str "oops"]]) =
      (Except.error
          "Invalid device description for newDevices method: TypeMismatch: expected struct",
        []) :=
  ⟨(newDevices_decode_abort_or_forward (constReceiver (Except.ok ())) "X" []).2 [] rfl,
    (newDevices_decode_abort_or_forward (constReceiver (Except.ok ())) "X"
        [Value.str "oops"]).1
      "Invalid device description for newDevices method: TypeMismatch: expected struct" rfl⟩

/-- C9: when the transport delivers a response to `Deinit` other than the
empty string, the resulting error message names the wire method actually
called, `init`, and never mentions `deinit`. -/
theorem deinit_error_names_init (call : HmCall) (receiverAddress : String) (resp : Value)
    (h1 : call "init" [Value.str receiverAddress] = Except.ok resp)
    (h2 : resp ≠ Value.str "") :
    (Deinit call receiverAddress).1 =
      Except.error "Invalid response for method init: Expected emtpy string as response" ∧
    ¬ List.IsInfix "deinit".toList
        "Invalid response for method init: Expected emtpy string as response".toList ∧
    List.IsInfix "method init:".toList
        "Invalid response for method init: Expected emtpy string as response".toList := by
  refine ⟨?_, by decide, by decide⟩
  have ha := assertEmptyResponse_error resp h2
  simp [Deinit, h1, ha]
  rfl

/-- Witness for C9 at the concrete response `"x"`. -/
theorem deinit_error_names_init_witness :
    (Deinit (constCall (Value.str "x")) "http://recv").1 =
      Except.error "Invalid response for method init: Expected emtpy string as response" :=
  (deinit_error_names_init (constCall (Value.str "x")) "http://recv" (Value.str "x") rfl
    (by simp)).1

/-- C10: when some entry of the `getParamsetDescription` response fails to
decode as a ParameterDescription, the operation returns the error naming
the method, and — the error case carrying no map — no partially populated
paramset description alongside it. -/
theorem getParamsetDescription_error_no_partial (call : HmCall)
    (deviceAddress paramsetType : String) (v : Value)
    (entries : List (String × Value)) (e : String)
    (h1 : call "getParamsetDescription" [Value.str deviceAddress, Value.str paramsetType] =
      Except.ok v)
    (h2 : qMapE v = Except.ok entries)
    (h3 : decodeParams entries = Except.error e) :
    GetParamsetDescription call deviceAddress paramsetType =
      Except.error s!"Invalid XML response for getParamsetDescription: {e}" := by
  simp [GetParamsetDescription, h1, h2, h3]

/-- Witness for C10: a one-entry response whose entry is not a named map
fails the whole operation with the wrapped decode error. -/
theorem getParamsetDescription_error_no_partial_witness :
    GetParamsetDescription (constCall (Value.struct [("P", Value.str "bad")]))
        "DEV" "MASTER" =
      Except.error
        "Invalid XML response for getParamsetDescription: TypeMismatch: expected struct" :=
  getParamsetDescription_error_no_partial
    (constCall (Value.struct [("P", Value.str "bad")])) "DEV" "MASTER"
    (Value.struct [("P", Value.str "bad")]) [("P", Value.str "bad")]
    "TypeMismatch: expected struct" rfl rfl rfl

end Itf
